import Mathlib

/-!
Shallow embedding of the ARDS cohort-extraction pipeline (MIMIC-IV notebooks):
the base-cohort definition (optimized and original variants), the optimized
ARDS-identification notebook and the Berlin-criteria ARDS-identification
notebook.  Timestamps are rationals (seconds); measurement values are
rationals; nullable columns are `Option` values; pandas NaN-comparison
semantics (a comparison against NaN is false) is modelled by pattern matching
on the `Option`.  DataFrames are lists of rows; identifier sets are `Finset ℤ`.
-/

attribute [local semireducible] Rat.mul Rat.add Rat.sub Rat.inv

namespace ArdsPipeline

/-- Generic pandas-style left merge on integer keys: each left row is paired with
every right row whose key matches; an unmatched left row is kept once with `none`
(its merged columns are NaN). -/
def leftJoin {α β : Type} (lk : α → ℤ) (rk : β → ℤ) (left : List α) (right : List β) :
    List (α × Option β) :=
  left.flatMap (fun a =>
    match right.filter (fun b => rk b == lk a) with
    | [] => [(a, none)]
    | bs => bs.map (fun b => (a, some b)))

/-- A matched partner produced by `leftJoin` comes from the right table and has the
matching key. -/
theorem leftJoin_mem_right {α β : Type} (lk : α → ℤ) (rk : β → ℤ)
    (left : List α) (right : List β) (a : α) (b : β)
    (h : (a, some b) ∈ leftJoin lk rk left right) : b ∈ right ∧ rk b = lk a := by
  rcases List.mem_flatMap.mp h with ⟨x, hx, hmem⟩
  cases hfil : right.filter (fun c => rk c == lk x) with
  | nil =>
    rw [hfil] at hmem
    simp at hmem
  | cons c cs =>
    rw [hfil] at hmem
    rcases List.mem_map.mp hmem with ⟨d, hd, he⟩
    have hda : d = b ∧ x = a := by
      constructor
      · have := congrArg Prod.snd he
        simpa using this
      · have := congrArg Prod.fst he
        simpa using this
    rcases hda with ⟨rfl, rfl⟩
    rw [← hfil] at hd
    have := List.mem_filter.mp hd
    exact ⟨this.1, by simpa using this.2⟩

/-- If the right table's keys are distinct, at most one right row matches any key. -/
theorem filter_key_len_le_one {β : Type} (rk : β → ℤ) (right : List β)
    (hnd : (right.map rk).Nodup) (k : ℤ) :
    (right.filter (fun b => rk b == k)).length ≤ 1 := by
  induction right with
  | nil => simp
  | cons b bs ih =>
    rw [List.map_cons, List.nodup_cons] at hnd
    by_cases hb : rk b = k
    · have hrest : bs.filter (fun c => rk c == k) = [] := by
        rw [List.filter_eq_nil_iff]
        intro c hc hck
        have hrck : rk c = k := by simpa using hck
        exact hnd.1 (by rw [hb, ← hrck]; exact List.mem_map_of_mem rk hc)
      simp [List.filter_cons, hb, hrest]
    · have : (rk b == k) = false := by simp [hb]
      simp only [List.filter_cons, this, Bool.false_eq_true, if_false]
      exact ih hnd.2

/-- Left-joining against a table with distinct keys neither drops nor duplicates
left rows: projecting the result back to its left components gives the left table. -/
theorem leftJoin_map_fst {α β : Type} (lk : α → ℤ) (rk : β → ℤ)
    (left : List α) (right : List β) (hnd : (right.map rk).Nodup) :
    (leftJoin lk rk left right).map Prod.fst = left := by
  induction left with
  | nil => rfl
  | cons a as ih =>
    unfold leftJoin at ih ⊢
    rw [List.flatMap_cons, List.map_append, ih]
    cases hfil : right.filter (fun b => rk b == lk a) with
    | nil => simp
    | cons b bs =>
      have hlen := filter_key_len_le_one rk right hnd (lk a)
      rw [hfil] at hlen
      simp only [List.length_cons] at hlen
      have hbs : bs = [] := List.eq_nil_of_length_eq_zero (by omega)
      subst hbs
      simp

/-- Minimum of a list of rationals: the result is an element of the list and a lower
bound for the list. -/
theorem foldl_min_mem (l : List ℚ) (a : ℚ) : l.foldl min a = a ∨ l.foldl min a ∈ l := by
  induction l generalizing a with
  | nil => exact Or.inl rfl
  | cons b t ih =>
    rw [List.foldl_cons]
    rcases ih (min a b) with h | h
    · rcases min_choice a b with hm | hm
      · exact Or.inl (h.trans hm)
      · exact Or.inr (by rw [h, hm]; exact List.mem_cons_self b t)
    · exact Or.inr (List.mem_cons_of_mem b h)

theorem foldl_min_le (l : List ℚ) (a : ℚ) :
    l.foldl min a ≤ a ∧ ∀ b ∈ l, l.foldl min a ≤ b := by
  induction l generalizing a with
  | nil => exact ⟨le_refl a, by simp⟩
  | cons c t ih =>
    rw [List.foldl_cons]
    rcases ih (min a c) with ⟨h1, h2⟩
    refine ⟨h1.trans (min_le_left a c), ?_⟩
    intro b hb
    rcases List.mem_cons.mp hb with rfl | hb
    · exact h1.trans (min_le_right a b)
    · exact h2 b hb

theorem qmin_spec (l : List ℚ) (a : ℚ) (h : l.min? = some a) :
    a ∈ l ∧ ∀ b ∈ l, a ≤ b := by
  cases l with
  | nil => simp [List.min?] at h
  | cons c t =>
    have h2 : some (t.foldl min c) = some a := h
    have ha : t.foldl min c = a := Option.some.inj h2
    constructor
    · rcases foldl_min_mem t c with hm | hm
      · rw [← ha, hm]; exact List.mem_cons_self c t
      · rw [← ha]; exact List.mem_cons_of_mem c hm
    · intro b hb
      rcases List.mem_cons.mp hb with h1 | h1
      · rw [← ha, h1]; exact (foldl_min_le t c).1
      · rw [← ha]; exact (foldl_min_le t c).2 b h1

theorem qmin_isSome (l : List ℚ) (h : l ≠ []) : ∃ a, l.min? = some a := by
  cases l with
  | nil => exact absurd rfl h
  | cons c t => exact ⟨t.foldl min c, rfl⟩

/-- `find?` with an equality test finds the searched key itself whenever present. -/
theorem find?_beq_self {l : List ℤ} {k : ℤ} (hm : k ∈ l) :
    l.find? (fun x => x == k) = some k := by
  induction l with
  | nil => cases hm
  | cons a t ih =>
    by_cases ha : a = k
    · subst ha; simp [List.find?]
    · have hf : (a == k) = false := by simp [ha]
      rw [List.find?_cons, hf]
      rcases List.mem_cons.mp hm with h1 | h1
      · exact absurd h1.symm ha
      · exact ih h1

/-- `find?` by key over a keyed `map` reduces to `find?` over the key list. -/
theorem find?_map_key {β : Type} (f : ℤ → β) (keyF : β → ℤ) (hk : ∀ k, keyF (f k) = k)
    (l : List ℤ) (h : ℤ) :
    (l.map f).find? (fun r => keyF r == h) = (l.find? (fun k => k == h)).map f := by
  induction l with
  | nil => rfl
  | cons a t ih =>
    rw [List.map_cons, List.find?_cons, List.find?_cons, hk]
    cases hab : (a == h) with
    | true => rfl
    | false => exact ih

/-- A key occurs in the deduplicated key list iff its group of rows is nonempty. -/
theorem mem_dedup_map_iff {α : Type} (key : α → ℤ) (rows : List α) (h : ℤ) :
    h ∈ (rows.map key).dedup ↔ rows.filter (fun r => key r == h) ≠ [] := by
  rw [List.mem_dedup, List.mem_map]
  constructor
  · rintro ⟨r, hr, rfl⟩
    intro hnil
    have : r ∈ rows.filter (fun x => key x == key r) := List.mem_filter.mpr ⟨hr, by simp⟩
    rw [hnil] at this
    cases this
  · intro hne
    rcases List.exists_mem_of_ne_nil _ hne with ⟨r, hr⟩
    have := List.mem_filter.mp hr
    exact ⟨r, this.1, by simpa using this.2⟩

/-- A `patients` row (columns used by the pipeline). -/
structure Patient where
  subject_id : ℤ
  anchor_age : ℤ
  anchor_year : ℤ
deriving DecidableEq

/-- An `admissions` row.  `admit_year` is the calendar year of `admittime`
(derived in the source via `dt.year`); calendar arithmetic is not modelled, so
the year accompanies the timestamp as an input column. -/
structure Admission where
  subject_id : ℤ
  hadm_id : ℤ
  admittime : ℚ
  admit_year : ℤ
deriving DecidableEq

/-- An `icustays` row. -/
structure IcuStay where
  hadm_id : ℤ
  stay_id : ℤ
  intime : ℚ
  outtime : ℚ
deriving DecidableEq

/-- A `chartevents` row (columns loaded by the notebooks); `valuenum` is nullable. -/
structure ChartEvent where
  stay_id : ℤ
  itemid : ℤ
  charttime : ℚ
  valuenum : Option ℚ
deriving DecidableEq

/-- A `diagnoses_icd` row. -/
structure Diagnosis where
  hadm_id : ℤ
  icd_code : String
deriving DecidableEq

/-- A `radiology` row as read by the base-cohort notebooks (only the nullable
admission identifier is used there). -/
structure RadRow where
  hadm_id : Option ℤ
deriving DecidableEq

namespace NB01

/-! Embedding of `01_cohort_definition_optimized.ipynb`. -/

structure Inputs where
  patients : List Patient
  admissions : List Admission
  icustays : List IcuStay
  chartevents : List ChartEvent
  diagnoses : List Diagnosis
  radiology : List RadRow

def PEEP_ITEMIDS : List ℤ := [220339, 224700, 224699]

def SPO2_ITEMIDS : List ℤ := [220277, 224696]

def FIO2_ITEMIDS : List ℤ := [220210, 223835]

def ALL_VENT_ITEMIDS : List ℤ := PEEP_ITEMIDS ++ SPO2_ITEMIDS ++ FIO2_ITEMIDS

inductive ParamType
  | peep | spo2 | fio2 | unknown
deriving DecidableEq

/-- `param_type` assignment from the item identifier. -/
def classifyItem (id : ℤ) : ParamType :=
  if id ∈ PEEP_ITEMIDS then .peep
  else if id ∈ SPO2_ITEMIDS then .spo2
  else if id ∈ FIO2_ITEMIDS then .fio2
  else .unknown

/-- `patient_data`: admissions left-merged with patients on `subject_id`. -/
def patient_data (i : Inputs) : List (Admission × Option Patient) :=
  leftJoin (fun a => a.subject_id) (fun p => p.subject_id) i.admissions i.patients

/-- `age_at_admission = anchor_age + (admit_year - anchor_year)`; missing patient
row gives NaN. -/
def age_at_admission (r : Admission × Option Patient) : Option ℤ :=
  r.2.map (fun p => p.anchor_age + (r.1.admit_year - p.anchor_year))

/-- Adults only (a NaN age fails the `≥ 18` comparison). -/
def adult_admissions (i : Inputs) : List (Admission × Option Patient) :=
  (patient_data i).filter (fun r =>
    match age_at_admission r with
    | some a => decide (18 ≤ a)
    | none => false)

/-- One row per (admission, ICU-stay) pair: the inner merge with `icustays` on
`hadm_id`. -/
def adult_icu_admissions (i : Inputs) : List ((Admission × Option Patient) × IcuStay) :=
  (adult_admissions i).flatMap (fun a =>
    (i.icustays.filter (fun s => s.hadm_id == a.1.hadm_id)).map (fun s => (a, s)))

def target_stay_ids (i : Inputs) : Finset ℤ :=
  ((adult_icu_admissions i).map (fun r => r.2.stay_id)).toFinset

/-- `chartevents` filtered to cohort stays, ventilation items and non-null values. -/
def vent_events (i : Inputs) : List ChartEvent :=
  i.chartevents.filter (fun e =>
    decide (e.stay_id ∈ target_stay_ids i) && decide (e.itemid ∈ ALL_VENT_ITEMIDS) &&
    e.valuenum.isSome)

/-- A `vent_data` row: the event together with its (possibly missing) merged
`(stay_id, hadm_id, intime)` link from `adult_icu_admissions`. -/
abbrev VentRow := ChartEvent × Option ((Admission × Option Patient) × IcuStay)

/-- `vent_data`: filtered events left-merged with the cohort on `stay_id`. -/
def vent_data (i : Inputs) : List VentRow :=
  leftJoin (fun e => e.stay_id) (fun r => r.2.stay_id) (vent_events i) (adult_icu_admissions i)

/-- The merged `hadm_id` column (NaN when the stay found no cohort row). -/
def rowHadm (r : VentRow) : Option ℤ :=
  r.2.map (fun m => m.1.1.hadm_id)

/-- `hours_from_icu = (charttime - intime).total_seconds() / 3600` (NaN when
unmatched). -/
def rowHours (r : VentRow) : Option ℚ :=
  r.2.map (fun m => (r.1.charttime - m.2.intime) / 3600)

/-- `peep_qualifying`: PEEP rows with `0 ≤ hours_from_icu ≤ 48` and `valuenum ≥ 5`. -/
def peep_qualifying (i : Inputs) : List VentRow :=
  (vent_data i).filter (fun r =>
    decide (classifyItem r.1.itemid = ParamType.peep) &&
    (match rowHours r with
     | some h => decide (0 ≤ h) && decide (h ≤ 48)
     | none => false) &&
    (match r.1.valuenum with
     | some v => decide (5 ≤ v)
     | none => false))

def peep_qualifying_admissions (i : Inputs) : Finset ℤ :=
  ((peep_qualifying i).filterMap rowHadm).toFinset

def vent_data_filtered (i : Inputs) : List VentRow :=
  (vent_data i).filter (fun r =>
    match rowHadm r with
    | some h => decide (h ∈ peep_qualifying_admissions i)
    | none => false)

def spo2_fio2_data (i : Inputs) : List VentRow :=
  (vent_data_filtered i).filter (fun r =>
    decide (classifyItem r.1.itemid = ParamType.spo2) ||
    decide (classifyItem r.1.itemid = ParamType.fio2))

/-- FiO2 unit normalization: a value above 1 is a percentage and is divided by 100. -/
def normalize_fio2 (v : ℚ) : ℚ := if 1 < v then v / 100 else v

/-- Row value after the FiO2 percentage-to-fraction conversion (FiO2 rows only). -/
def adjustedValue (r : VentRow) : Option ℚ :=
  if classifyItem r.1.itemid = ParamType.fio2 then r.1.valuenum.map normalize_fio2
  else r.1.valuenum

/-- The pivot index of `sf_pivot`: distinct `(hadm_id, charttime)` pairs (rows with
a missing admission link or value are dropped by `pivot_table`). -/
def sfKeys (i : Inputs) : List (ℤ × ℚ) :=
  ((spo2_fio2_data i).filterMap (fun r =>
    match rowHadm r, r.1.valuenum with
    | some h, some _ => some (h, r.1.charttime)
    | _, _ => none)).dedup

/-- `aggfunc='first'`: the first non-null value of the parameter at a pivot key. -/
def firstValueAt (i : Inputs) (p : ParamType) (k : ℤ × ℚ) : Option ℚ :=
  (((spo2_fio2_data i).filter (fun r =>
      decide (rowHadm r = some k.1) && decide (r.1.charttime = k.2) &&
      decide (classifyItem r.1.itemid = p))).filterMap adjustedValue).head?

structure SfRow where
  hadm_id : ℤ
  charttime : ℚ
  spo2 : ℚ
  fio2 : ℚ
  sf_ratio : ℚ
deriving DecidableEq

/-- `sf_ratios`: pivot rows where both SpO2 and FiO2 are present and FiO2 is
strictly positive; `sf_ratio` is SpO2 / FiO2. -/
def sf_ratios (i : Inputs) : List SfRow :=
  (sfKeys i).filterMap (fun k =>
    match firstValueAt i ParamType.spo2 k, firstValueAt i ParamType.fio2 k with
    | some s, some f => if 0 < f then some ⟨k.1, k.2, s, f, s / f⟩ else none
    | _, _ => none)

def sf_qualifying_admissions (i : Inputs) : Finset ℤ :=
  (((sf_ratios i).filter (fun r => decide (r.sf_ratio < 315))).map (fun r => r.hadm_id)).toFinset

def final_qualifying_admissions (i : Inputs) : Finset ℤ :=
  peep_qualifying_admissions i ∩ sf_qualifying_admissions i

/-- Heart-failure code heads: ICD-9 `4280`..`4289` and ICD-10 `I50`, `I500`..`I509`. -/
def hf_codes : List String :=
  ["4280", "4281", "4282", "4283", "4284", "4285", "4286", "4287", "4288", "4289",
   "I50", "I500", "I501", "I502", "I503", "I504", "I505", "I506", "I507", "I508", "I509"]

/-- The ICD-9 three-character heads `630`..`679` for pregnancy. -/
def pregnancy_icd9_first3 : List String :=
  ["630", "631", "632", "633", "634", "635", "636", "637", "638", "639",
   "640", "641", "642", "643", "644", "645", "646", "647", "648", "649",
   "650", "651", "652", "653", "654", "655", "656", "657", "658", "659",
   "660", "661", "662", "663", "664", "665", "666", "667", "668", "669",
   "670", "671", "672", "673", "674", "675", "676", "677", "678", "679"]

def hf_admissions (i : Inputs) : Finset ℤ :=
  ((i.diagnoses.filter (fun d =>
      hf_codes.any (fun c => d.icd_code.startsWith c))).map (fun d => d.hadm_id)).toFinset

def pregnancy_admissions (i : Inputs) : Finset ℤ :=
  ((i.diagnoses.filter (fun d =>
      decide (d.icd_code.take 3 ∈ pregnancy_icd9_first3) ||
      d.icd_code.startsWith "O")).map (fun d => d.hadm_id)).toFinset

def excluded_admissions (i : Inputs) : Finset ℤ :=
  hf_admissions i ∪ pregnancy_admissions i

def final_cohort_admissions (i : Inputs) : Finset ℤ :=
  final_qualifying_admissions i \ excluded_admissions i

def radiology_admissions (i : Inputs) : Finset ℤ :=
  (i.radiology.filterMap (fun r => r.hadm_id)).toFinset

def final_cohort_admissions_w_reports (i : Inputs) : Finset ℤ :=
  final_cohort_admissions i ∩ radiology_admissions i

/-- Final cohort rows: one per qualifying (admission, stay) pair, with the derived
`icu_los_days = (outtime - intime) / 86400` attached. -/
def final_cohort (i : Inputs) : List (((Admission × Option Patient) × IcuStay) × ℚ) :=
  ((adult_icu_admissions i).filter (fun r =>
      decide (r.1.1.hadm_id ∈ final_cohort_admissions_w_reports i))).map
    (fun r => (r, (r.2.outtime - r.2.intime) / 86400))

def adult_icu_hadm_ids (i : Inputs) : Finset ℤ :=
  ((adult_icu_admissions i).map (fun r => r.1.1.hadm_id)).toFinset

end NB01

namespace NB02

/-! Embedding of `02_ards_identification_optimized.ipynb`. -/

/-- A base-cohort row (columns this notebook uses). -/
structure CohortRow where
  subject_id : ℤ
  hadm_id : ℤ
  stay_id : ℤ
  intime : ℚ
  outtime : ℚ
deriving DecidableEq

/-- A radiology note row.  The regex text classifier is the external collaborator;
its boolean output for the note's text is carried as `bilateral_infiltrates`. -/
structure Report where
  hadm_id : Option ℤ
  charttime : ℚ
  bilateral_infiltrates : Bool
deriving DecidableEq

structure Inputs where
  base_cohort : List CohortRow
  chartevents : List ChartEvent
  radiology : List Report

def SPO2_ITEMIDS : List ℤ := [220277, 224696]

def FIO2_ITEMIDS : List ℤ := [220210, 223835]

def SF_ITEMIDS : List ℤ := SPO2_ITEMIDS ++ FIO2_ITEMIDS

def target_stay_ids (i : Inputs) : Finset ℤ :=
  (i.base_cohort.map (fun r => r.stay_id)).toFinset

def cohort_hadm_ids (i : Inputs) : Finset ℤ :=
  (i.base_cohort.map (fun r => r.hadm_id)).toFinset

/-- `param_type` for this notebook (only SpO2/FiO2 items are loaded). -/
def classifyItem (id : ℤ) : NB01.ParamType :=
  if id ∈ SPO2_ITEMIDS then .spo2
  else if id ∈ FIO2_ITEMIDS then .fio2
  else .unknown

/-- `sf_data` before the merge: cohort stays, S/F items, non-null values. -/
def sf_events (i : Inputs) : List ChartEvent :=
  i.chartevents.filter (fun e =>
    decide (e.stay_id ∈ target_stay_ids i) && decide (e.itemid ∈ SF_ITEMIDS) &&
    e.valuenum.isSome)

abbrev SfDataRow := ChartEvent × Option CohortRow

/-- `sf_data`: filtered events left-merged with the base cohort on `stay_id`. -/
def sf_data (i : Inputs) : List SfDataRow :=
  leftJoin (fun e => e.stay_id) (fun r => r.stay_id) (sf_events i) i.base_cohort

def rowHadm (r : SfDataRow) : Option ℤ := r.2.map (fun m => m.hadm_id)

/-- `minutes_from_icu = (charttime - intime).total_seconds() / 60`. -/
def rowMinutes (r : SfDataRow) : Option ℚ :=
  r.2.map (fun m => (r.1.charttime - m.intime) / 60)

/-- `sf_data_60min`: rows within the first 60 minutes of ICU admission. -/
def sf_data_60min (i : Inputs) : List SfDataRow :=
  (sf_data i).filter (fun r =>
    match rowMinutes r with
    | some m => decide (0 ≤ m) && decide (m ≤ 60)
    | none => false)

/-- Row value after the FiO2 percentage conversion (applied inside the 60-minute
window, before the pivot). -/
def adjustedValue (r : SfDataRow) : Option ℚ :=
  if classifyItem r.1.itemid = NB01.ParamType.fio2 then r.1.valuenum.map NB01.normalize_fio2
  else r.1.valuenum

/-- The pivot index `['stay_id', 'hadm_id', 'charttime']`. -/
def sfKeys (i : Inputs) : List (ℤ × ℤ × ℚ) :=
  ((sf_data_60min i).filterMap (fun r =>
    match rowHadm r, r.1.valuenum with
    | some h, some _ => some (r.1.stay_id, h, r.1.charttime)
    | _, _ => none)).dedup

/-- `aggfunc='first'` at a pivot key. -/
def firstValueAt (i : Inputs) (p : NB01.ParamType) (k : ℤ × ℤ × ℚ) : Option ℚ :=
  (((sf_data_60min i).filter (fun r =>
      r.1.stay_id == k.1 && decide (rowHadm r = some k.2.1) &&
      decide (r.1.charttime = k.2.2) &&
      decide (classifyItem r.1.itemid = p))).filterMap adjustedValue).head?

structure PivotRow where
  stay_id : ℤ
  hadm_id : ℤ
  charttime : ℚ
  spo2 : ℚ
  fio2 : ℚ
  sf_ratio : ℚ
deriving DecidableEq

/-- Pivot rows with both parameters present and a strictly positive FiO2. -/
def sf_pivot_ratios (i : Inputs) : List PivotRow :=
  (sfKeys i).filterMap (fun k =>
    match firstValueAt i NB01.ParamType.spo2 k, firstValueAt i NB01.ParamType.fio2 k with
    | some s, some f => if 0 < f then some ⟨k.1, k.2.1, k.2.2, s, f, s / f⟩ else none
    | _, _ => none)

/-- An `sf_ratios` row after the second merge: `minutes_from_icu` is recomputed
from the re-merged `intime` (NaN when the stay is absent from the base cohort). -/
structure SfObs where
  stay_id : ℤ
  hadm_id : ℤ
  charttime : ℚ
  spo2 : ℚ
  fio2 : ℚ
  sf_ratio : ℚ
  minutes_from_icu : Option ℚ
deriving DecidableEq

def sf_ratios (i : Inputs) : List SfObs :=
  (leftJoin (fun p => p.stay_id) (fun b => b.stay_id) (sf_pivot_ratios i) i.base_cohort).map
    (fun pr => ⟨pr.1.stay_id, pr.1.hadm_id, pr.1.charttime, pr.1.spo2, pr.1.fio2, pr.1.sf_ratio,
                pr.2.map (fun b => (pr.1.charttime - b.intime) / 60)⟩)

/-- `ards_sf_criteria`: observations with S/F ratio `≤ 315`. -/
def ards_sf_criteria (i : Inputs) : List SfObs :=
  (sf_ratios i).filter (fun r => decide (r.sf_ratio ≤ 315))

structure OnsetRow where
  hadm_id : ℤ
  ards_onset_time : Option ℚ
  ards_onset_sf_ratio : Option ℚ
  ards_onset_minutes_from_icu : Option ℚ
deriving DecidableEq

/-- `ards_onset_times`: per admission, the `min` charttime, the `min` S/F ratio and
the `min` minutes-from-ICU over its qualifying observations (three independent
column minima). -/
def ards_onset_times (i : Inputs) : List OnsetRow :=
  (((ards_sf_criteria i).map (fun r => r.hadm_id)).dedup).map (fun h =>
    let g := (ards_sf_criteria i).filter (fun r => r.hadm_id == h)
    ⟨h, (g.map (fun r => r.charttime)).min?, (g.map (fun r => r.sf_ratio)).min?,
     (g.filterMap (fun r => r.minutes_from_icu)).min?⟩)

def lookupOnset (i : Inputs) (h : ℤ) : Option OnsetRow :=
  (ards_onset_times i).find? (fun r => r.hadm_id == h)

/-- `cohort_radiology`: reports whose admission belongs to the cohort. -/
def cohort_radiology (i : Inputs) : List (ℤ × ℚ × Bool) :=
  i.radiology.filterMap (fun r =>
    match r.hadm_id with
    | some h =>
      if h ∈ cohort_hadm_ids i then some (h, r.charttime, r.bilateral_infiltrates) else none
    | none => none)

structure BilatRow where
  hadm_id : ℤ
  has_bilateral_infiltrates : Bool
  first_radiology_time : Option ℚ
deriving DecidableEq

/-- `bilateral_by_admission`: per admission, `any` over the classifier flags and the
`min` charttime over ALL of the admission's reports (`first_radiology_time`). -/
def bilateral_by_admission (i : Inputs) : List BilatRow :=
  (((cohort_radiology i).map (fun r => r.1)).dedup).map (fun h =>
    let g := (cohort_radiology i).filter (fun r => r.1 == h)
    ⟨h, g.any (fun r => r.2.2), (g.map (fun r => r.2.1)).min?⟩)

def lookupBilat (i : Inputs) (h : ℤ) : Option BilatRow :=
  (bilateral_by_admission i).find? (fun r => r.hadm_id == h)

/-- `final_cohort` of the flagging stage: the base cohort left-merged with the two
per-admission aggregates. -/
def final_cohort (i : Inputs) : List ((CohortRow × Option OnsetRow) × Option BilatRow) :=
  leftJoin (fun p => p.1.hadm_id) (fun b => b.hadm_id)
    (leftJoin (fun r => r.hadm_id) (fun o => o.hadm_id) i.base_cohort (ards_onset_times i))
    (bilateral_by_admission i)

end NB02

namespace NB00

/-! Embedding of the original cohort-definition notebook (`src/unnamed/part_000`). -/

structure Inputs where
  patients : List Patient
  admissions : List Admission
  icustays : List IcuStay
  chartevents : List ChartEvent
  diagnoses : List Diagnosis
  radiology : List RadRow

def patient_admissions (i : Inputs) : List (Admission × Option Patient) :=
  leftJoin (fun a => a.subject_id) (fun p => p.subject_id) i.admissions i.patients

def adult_admissions (i : Inputs) : List (Admission × Option Patient) :=
  (patient_admissions i).filter (fun r =>
    match NB01.age_at_admission r with
    | some a => decide (18 ≤ a)
    | none => false)

/-- `drop_duplicates(['hadm_id'])`: keep the first ICU-stay row of each admission. -/
def dedupByHadmAux : List IcuStay → List ℤ → List IcuStay
  | [], _ => []
  | s :: rest, seen =>
    if s.hadm_id ∈ seen then dedupByHadmAux rest seen
    else s :: dedupByHadmAux rest (s.hadm_id :: seen)

def dedupByHadm (l : List IcuStay) : List IcuStay := dedupByHadmAux l []

/-- `admissions_with_icu`: inner merge with the per-admission DEDUPLICATED stays. -/
def admissions_with_icu (i : Inputs) : List ((Admission × Option Patient) × IcuStay) :=
  (adult_admissions i).flatMap (fun a =>
    ((dedupByHadm i.icustays).filter (fun s => s.hadm_id == a.1.hadm_id)).map (fun s => (a, s)))

def admissions_with_icu_hadm_ids (i : Inputs) : Finset ℤ :=
  ((admissions_with_icu i).map (fun r => r.1.1.hadm_id)).toFinset

/-- `cohort_icustays`: ALL stays of the cohort's admissions (not deduplicated). -/
def cohort_icustays (i : Inputs) : List IcuStay :=
  i.icustays.filter (fun s => decide (s.hadm_id ∈ admissions_with_icu_hadm_ids i))

def cohort_stay_ids (i : Inputs) : Finset ℤ :=
  ((cohort_icustays i).map (fun s => s.stay_id)).toFinset

def cohort_events (i : Inputs) : List ChartEvent :=
  i.chartevents.filter (fun e =>
    decide (e.stay_id ∈ cohort_stay_ids i) && decide (e.itemid ∈ NB01.ALL_VENT_ITEMIDS) &&
    e.valuenum.isSome)

/-- `cohort_data`: inner merge of the filtered events with `cohort_icustays` on
`stay_id` (pandas `merge` default). -/
def cohort_data (i : Inputs) : List (ChartEvent × IcuStay) :=
  (cohort_events i).flatMap (fun e =>
    ((cohort_icustays i).filter (fun s => s.stay_id == e.stay_id)).map (fun s => (e, s)))

def hoursFromIcu (r : ChartEvent × IcuStay) : ℚ :=
  (r.1.charttime - r.2.intime) / 3600

/-- `peep_first_48h`: PEEP rows with `0 ≤ hours_from_icu ≤ 48` and value `≥ 5`. -/
def peep_first_48h (i : Inputs) : List (ChartEvent × IcuStay) :=
  (cohort_data i).filter (fun r =>
    decide (NB01.classifyItem r.1.itemid = NB01.ParamType.peep) &&
    decide (0 ≤ hoursFromIcu r) && decide (hoursFromIcu r ≤ 48) &&
    (match r.1.valuenum with
     | some v => decide (5 ≤ v)
     | none => false))

def admissions_with_peep (i : Inputs) : Finset ℤ :=
  ((peep_first_48h i).map (fun r => r.2.hadm_id)).toFinset

def cohort_data_peep (i : Inputs) : List (ChartEvent × IcuStay) :=
  (cohort_data i).filter (fun r => decide (r.2.hadm_id ∈ admissions_with_peep i))

/-- One measurement of a per-admission time series handed to `merge_asof`. -/
structure MRow where
  hadm_id : ℤ
  charttime : ℚ
  value : ℚ
deriving DecidableEq

def spo2_rows (i : Inputs) : List MRow :=
  (cohort_data_peep i).filterMap (fun r =>
    if NB01.classifyItem r.1.itemid = NB01.ParamType.spo2 then
      r.1.valuenum.map (fun v => ⟨r.2.hadm_id, r.1.charttime, v⟩)
    else none)

/-- FiO2 rows with the percentage conversion (`loc[valuenum > 1] /= 100`) applied. -/
def fio2_rows (i : Inputs) : List MRow :=
  (cohort_data_peep i).filterMap (fun r =>
    if NB01.classifyItem r.1.itemid = NB01.ParamType.fio2 then
      r.1.valuenum.map (fun v => ⟨r.2.hadm_id, r.1.charttime, NB01.normalize_fio2 v⟩)
    else none)

/-- `sort_values(['hadm_id', 'charttime'])`. -/
def leKey (a b : MRow) : Bool :=
  decide (a.hadm_id < b.hadm_id) || (a.hadm_id == b.hadm_id && decide (a.charttime ≤ b.charttime))

def insertSorted (x : MRow) : List MRow → List MRow
  | [] => [x]
  | y :: rest => if leKey x y then x :: y :: rest else y :: insertSorted x rest

def sortByKey : List MRow → List MRow
  | [] => []
  | x :: rest => insertSorted x (sortByKey rest)

/-- `pd.merge_asof(..., by='hadm_id', tolerance=2h, direction='nearest')`: for a left
row, the right row of the same admission minimizing the absolute time difference,
within tolerance; an equidistant tie keeps the earlier right row. -/
def asofNearest (tol : ℚ) (l : MRow) (right : List MRow) : Option MRow :=
  (right.filter (fun c => c.hadm_id == l.hadm_id && decide (|l.charttime - c.charttime| ≤ tol))).foldl
    (fun best c =>
      match best with
      | none => some c
      | some b => if |l.charttime - c.charttime| < |l.charttime - b.charttime| then some c else some b)
    none

/-- `sf_ratios` of the original notebook: matched pairs with a positive FiO2
denominator; `(spo2 row, matched fio2 row, sf_ratio)`. -/
def sf_ratios (i : Inputs) : List (MRow × MRow × ℚ) :=
  (sortByKey (spo2_rows i)).filterMap (fun l =>
    match asofNearest 7200 l (sortByKey (fio2_rows i)) with
    | some f => if 0 < f.value then some (l, f, l.value / f.value) else none
    | none => none)

def admissions_with_low_sf (i : Inputs) : Finset ℤ :=
  (((sf_ratios i).filter (fun r => decide (r.2.2 < 315))).map (fun r => r.1.hadm_id)).toFinset

def qualifying_admissions (i : Inputs) : Finset ℤ :=
  admissions_with_peep i ∩ admissions_with_low_sf i

def cohort_with_criteria (i : Inputs) : List ((Admission × Option Patient) × IcuStay) :=
  (admissions_with_icu i).filter (fun r => decide (r.1.1.hadm_id ∈ qualifying_admissions i))

def admissions_with_radiology (i : Inputs) : Finset ℤ :=
  (i.radiology.filterMap (fun r => r.hadm_id)).toFinset

def cohort_with_radiology (i : Inputs) : List ((Admission × Option Patient) × IcuStay) :=
  (cohort_with_criteria i).filter (fun r => decide (r.1.1.hadm_id ∈ admissions_with_radiology i))

def hf_hadm_ids (i : Inputs) : Finset ℤ :=
  ((i.diagnoses.filter (fun d =>
      NB01.hf_codes.any (fun c => d.icd_code.startsWith c))).map (fun d => d.hadm_id)).toFinset

def pregnant_hadm_ids (i : Inputs) : Finset ℤ :=
  ((i.diagnoses.filter (fun d =>
      decide (d.icd_code.take 3 ∈ NB01.pregnancy_icd9_first3) ||
      d.icd_code.startsWith "O")).map (fun d => d.hadm_id)).toFinset

/-- `final_cohort`: rows with neither the heart-failure nor the pregnancy flag. -/
def final_cohort (i : Inputs) : List ((Admission × Option Patient) × IcuStay) :=
  (cohort_with_radiology i).filter (fun r =>
    !decide (r.1.1.hadm_id ∈ hf_hadm_ids i) && !decide (r.1.1.hadm_id ∈ pregnant_hadm_ids i))

end NB00

namespace NB03

/-! Embedding of the Berlin-criteria ARDS-identification notebook
(`src/unnamed/part_001`). -/

/-- A base-cohort row (columns this notebook's criteria read). -/
structure BaseRow where
  hadm_id : ℤ
  admission_dttm : ℚ
deriving DecidableEq

/-- A `chartevents` row as loaded here (the file's `hadm_id` column is kept). -/
structure RawEvent where
  hadm_id : ℤ
  stay_id : ℤ
  charttime : ℚ
  itemid : ℤ
  valuenum : Option ℚ
deriving DecidableEq

structure Inputs where
  base_cohort : List BaseRow
  icustays : List IcuStay
  chartevents : List RawEvent
  radiology : List NB02.Report

def base_hadm_ids (i : Inputs) : Finset ℤ :=
  (i.base_cohort.map (fun r => r.hadm_id)).toFinset

def cohort_icustays (i : Inputs) : List IcuStay :=
  i.icustays.filter (fun s => decide (s.hadm_id ∈ base_hadm_ids i))

def cohort_stay_ids (i : Inputs) : Finset ℤ :=
  ((cohort_icustays i).map (fun s => s.stay_id)).toFinset

inductive VKind
  | peep | fio2Percent | fio2Fraction | pao2 | pfItem | unknown
deriving DecidableEq

def peep_itemids : List ℤ := [220339, 224700]

def fio2_percent_itemids : List ℤ := [220210]

def fio2_fraction_itemids : List ℤ := [223835, 224698]

def pao2_itemids : List ℤ := [220224, 224689]

def pf_ratio_itemids : List ℤ := [223834]

def all_itemids : List ℤ :=
  peep_itemids ++ fio2_percent_itemids ++ fio2_fraction_itemids ++ pao2_itemids ++ pf_ratio_itemids

def classifyVent (id : ℤ) : VKind :=
  if id ∈ peep_itemids then .peep
  else if id ∈ fio2_percent_itemids then .fio2Percent
  else if id ∈ fio2_fraction_itemids then .fio2Fraction
  else if id ∈ pao2_itemids then .pao2
  else if id ∈ pf_ratio_itemids then .pfItem
  else .unknown

/-- `vent_df`: cohort stays and the notebook's ventilation item identifiers
(note: SpO2 items are NOT among them). -/
def vent_df (i : Inputs) : List RawEvent :=
  i.chartevents.filter (fun e =>
    decide (e.stay_id ∈ cohort_stay_ids i) && decide (e.itemid ∈ all_itemids))

/-- Event value after the FiO2-percent conversion (`/100`, applied before the pivot
and unconditional for percent items). -/
def adjVal (e : RawEvent) : Option ℚ :=
  if classifyVent e.itemid = VKind.fio2Percent then e.valuenum.map (fun v => v / 100)
  else e.valuenum

/-- The two FiO2 item families are combined into one `fio2` parameter. -/
def isFio2 (e : RawEvent) : Bool :=
  decide (classifyVent e.itemid = VKind.fio2Percent) ||
  decide (classifyVent e.itemid = VKind.fio2Fraction)

def eventsAt (i : Inputs) (h : ℤ) (t : ℚ) : List RawEvent :=
  (vent_df i).filter (fun e => e.hadm_id == h && decide (e.charttime = t))

/-- `aggfunc='first'`: first non-null value of the selected parameter at a key. -/
def kindValAt (i : Inputs) (h : ℤ) (t : ℚ) (sel : RawEvent → Bool) : Option ℚ :=
  (((eventsAt i h t).filter sel).filterMap adjVal).head?

def peepAt (i : Inputs) (h : ℤ) (t : ℚ) : Option ℚ :=
  kindValAt i h t (fun e => decide (classifyVent e.itemid = VKind.peep))

def fio2At (i : Inputs) (h : ℤ) (t : ℚ) : Option ℚ :=
  kindValAt i h t isFio2

def pao2At (i : Inputs) (h : ℤ) (t : ℚ) : Option ℚ :=
  kindValAt i h t (fun e => decide (classifyVent e.itemid = VKind.pao2))

def pfItemAt (i : Inputs) (h : ℤ) (t : ℚ) : Option ℚ :=
  kindValAt i h t (fun e => decide (classifyVent e.itemid = VKind.pfItem))

/-- `pf_ratio`: the directly recorded P/F item when present, otherwise
PaO2 / FiO2 when both are present and FiO2 is strictly positive. -/
def pfAt (i : Inputs) (h : ℤ) (t : ℚ) : Option ℚ :=
  match pfItemAt i h t with
  | some v => some v
  | none =>
    match pao2At i h t, fio2At i h t with
    | some p, some f => if 0 < f then some (p / f) else none
    | _, _ => none

/-- The pivot index: distinct `(hadm_id, charttime)` pairs with a non-null value. -/
def pivotKeys (i : Inputs) : List (ℤ × ℚ) :=
  ((vent_df i).filterMap (fun e => e.valuenum.map (fun _ => (e.hadm_id, e.charttime)))).dedup

structure VentProcRow where
  hadm_id : ℤ
  charttime : ℚ
  peep : Option ℚ
  fio2 : Option ℚ
  pao2 : Option ℚ
  pf_ratio : Option ℚ
deriving DecidableEq

/-- `vent_processed`: one row per pivot key with the four parameter columns. -/
def vent_processed (i : Inputs) : List VentProcRow :=
  (pivotKeys i).map (fun k =>
    ⟨k.1, k.2, peepAt i k.1 k.2, fio2At i k.1 k.2, pao2At i k.1 k.2, pfAt i k.1 k.2⟩)

def cohort_radiology (i : Inputs) : List (ℤ × ℚ × Bool) :=
  i.radiology.filterMap (fun r =>
    match r.hadm_id with
    | some h =>
      if h ∈ base_hadm_ids i then some (h, r.charttime, r.bilateral_infiltrates) else none
    | none => none)

/-- `bilateral_infiltrates_df`: positively classified reports only, earliest per
admission (the `note_id` bookkeeping column is omitted). -/
def bilateral_infiltrates_df (i : Inputs) : List (ℤ × ℚ) :=
  ((((cohort_radiology i).filter (fun r => r.2.2)).map (fun r => r.1)).dedup).filterMap (fun h =>
    (((((cohort_radiology i).filter (fun r => r.2.2)).filter (fun r => r.1 == h)).map
        (fun r => r.2.1)).min?).map (fun t => (h, t)))

/-- The inner merges of `identify_ards_onset_vectorized_corrected`: each processed
measurement joined with its admission's bilateral-infiltrates time and admission
time; `(row, bilateral_infiltrates_time, admission_dttm)`. -/
def vent_with_bilateral (i : Inputs) : List (VentProcRow × ℚ × ℚ) :=
  (vent_processed i).flatMap (fun r =>
    (bilateral_infiltrates_df i).flatMap (fun p =>
      if r.hadm_id == p.1 then
        (i.base_cohort.filter (fun b => b.hadm_id == p.1)).map
          (fun b => (r, p.2, b.admission_dttm))
      else []))

/-- The Berlin filter of the corrected vectorized identification. -/
def berlinCond (x : VentProcRow × ℚ × ℚ) : Bool :=
  decide ((x.2.1 - x.2.2) / 3600 ≤ 168) &&
  decide (0 ≤ (x.1.charttime - x.2.1) / 3600) &&
  decide (0 ≤ (x.1.charttime - x.2.2) / 3600) &&
  decide ((x.1.charttime - x.2.2) / 3600 ≤ 168) &&
  (match x.1.peep with
   | some p => decide (5 ≤ p)
   | none => false) &&
  (match x.1.pf_ratio with
   | some v => decide (v ≤ 300)
   | none => false)

def qualifying_measurements (i : Inputs) : List (VentProcRow × ℚ × ℚ) :=
  (vent_with_bilateral i).filter berlinCond

def SPO2_ITEMIDS : List ℤ := [220277, 224696]

/-- Modelled from the spec: the claim reads the Berlin-style criterion as testing
the S/F ratio (SpO2 divided by FiO2, per the glossary) at the same observation.
SpO2 items are not extracted by this notebook, so the spec-side ratio is
reconstructed from the same raw event stream: the first SpO2 value recorded for
the observation's `(hadm_id, charttime)` among the cohort's stays, divided by
the observation's FiO2 value. -/
def spo2AtSpec (i : Inputs) (h : ℤ) (t : ℚ) : Option ℚ :=
  ((i.chartevents.filter (fun e =>
      decide (e.stay_id ∈ cohort_stay_ids i) && decide (e.itemid ∈ SPO2_ITEMIDS) &&
      e.hadm_id == h && decide (e.charttime = t))).filterMap (fun e => e.valuenum)).head?

/-- Modelled from the spec: S/F ratio at an observation. -/
def sfAtSpec (i : Inputs) (h : ℤ) (t : ℚ) : Option ℚ :=
  match spo2AtSpec i h t, fio2At i h t with
  | some s, some f => if 0 < f then some (s / f) else none
  | _, _ => none

/-- Modelled from the spec: the claim's qualifying predicate — identical to
`berlinCond` except that the ratio tested is the S/F ratio. -/
def specSfCond (i : Inputs) (x : VentProcRow × ℚ × ℚ) : Bool :=
  decide ((x.2.1 - x.2.2) / 3600 ≤ 168) &&
  decide (0 ≤ (x.1.charttime - x.2.1) / 3600) &&
  decide (0 ≤ (x.1.charttime - x.2.2) / 3600) &&
  decide ((x.1.charttime - x.2.2) / 3600 ≤ 168) &&
  (match x.1.peep with
   | some p => decide (5 ≤ p)
   | none => false) &&
  (match sfAtSpec i x.1.hadm_id x.1.charttime with
   | some v => decide (v ≤ 300)
   | none => false)

/-- Modelled from the spec: the qualifying set the claim describes. -/
def qualifying_measurements_spec_sf (i : Inputs) : List (VentProcRow × ℚ × ℚ) :=
  (vent_with_bilateral i).filter (specSfCond i)

end NB03

/-! Concrete instantiations used by witnesses and counterexamples. -/

/-- A base-cohort input whose single admission (two ICU stays) passes every stage
of the optimized cohort notebook. -/
def inputPass : NB01.Inputs where
  patients := [⟨1, 50, 2020⟩]
  admissions := [⟨1, 1, 0, 2020⟩]
  icustays := [⟨1, 10, 0, 86400⟩, ⟨1, 11, 172800, 259200⟩]
  chartevents :=
    [⟨10, 220339, 3600, some 10⟩,
     ⟨10, 220277, 7200, some 90⟩,
     ⟨10, 220210, 7200, some 30⟩]
  diagnoses := []
  radiology := [⟨some 1⟩]

/-- An input with no chart events at all: the PEEP stage yields an empty set. -/
def inputEmpty : NB01.Inputs where
  patients := [⟨1, 50, 2020⟩]
  admissions := [⟨1, 1, 0, 2020⟩]
  icustays := [⟨1, 10, 0, 86400⟩]
  chartevents := []
  diagnoses := []
  radiology := [⟨some 1⟩]

/-- An input whose only matched S/F pair has a negative SpO2 value. -/
def inputNegSpo2 : NB01.Inputs where
  patients := [⟨1, 50, 2020⟩]
  admissions := [⟨1, 1, 0, 2020⟩]
  icustays := [⟨1, 10, 0, 86400⟩]
  chartevents :=
    [⟨10, 220339, 3600, some 10⟩,
     ⟨10, 220277, 7200, some (-1)⟩,
     ⟨10, 220210, 7200, some (1/2)⟩]
  diagnoses := []
  radiology := []

/-- A family with a single PEEP measurement of value 5 recorded `hrs` hours after
ICU admission, for the window-boundary checks. -/
def inputPeepAt (hrs : ℚ) : NB01.Inputs where
  patients := [⟨1, 50, 2020⟩]
  admissions := [⟨1, 1, 0, 2020⟩]
  icustays := [⟨1, 10, 0, 86400⟩]
  chartevents := [⟨10, 220339, hrs * 3600, some 5⟩]
  diagnoses := []
  radiology := []

/-- The same passing admission fed to the original (part_000) notebook: two ICU
stays and all criteria met. -/
def inputTwoStays00 : NB00.Inputs where
  patients := [⟨1, 50, 2020⟩]
  admissions := [⟨1, 1, 0, 2020⟩]
  icustays := [⟨1, 10, 0, 86400⟩, ⟨1, 11, 172800, 259200⟩]
  chartevents :=
    [⟨10, 220339, 3600, some 10⟩,
     ⟨10, 220277, 7200, some 90⟩,
     ⟨10, 220210, 7200, some 30⟩]
  diagnoses := []
  radiology := [⟨some 1⟩]

/-- Two qualifying onset observations for admission 1: ratio 300 at 600 s and
ratio 200 at 1200 s after ICU admission. -/
def inputOnset : NB02.Inputs where
  base_cohort := [⟨5, 1, 100, 0, 86400⟩]
  chartevents :=
    [⟨100, 220277, 600, some 90⟩,
     ⟨100, 220210, 600, some 30⟩,
     ⟨100, 220277, 1200, some 60⟩,
     ⟨100, 220210, 1200, some 30⟩]
  radiology := []

/-- Two radiology reports for admission 1: a negative one at time 1 and a positive
one at time 2. -/
def inputBilat : NB02.Inputs where
  base_cohort := [⟨5, 1, 100, 0, 86400⟩]
  chartevents := []
  radiology := [⟨some 1, 1, false⟩, ⟨some 1, 2, true⟩]

/-- Berlin-notebook input: one observation with PEEP 8, FiO2 0.3, PaO2 95 and a
simultaneous SpO2 90, with bilateral infiltrates documented at admission. -/
def inputBerlin : NB03.Inputs where
  base_cohort := [⟨1, 0⟩]
  icustays := [⟨1, 10, 0, 86400⟩]
  chartevents :=
    [⟨1, 10, 36000, 220339, some 8⟩,
     ⟨1, 10, 36000, 223835, some (3/10)⟩,
     ⟨1, 10, 36000, 220224, some 95⟩,
     ⟨1, 10, 36000, 220277, some 90⟩]
  radiology := [⟨some 1, 0, true⟩]

/-! Helper lemmas about the shape of emitted ratio observations. -/

theorem nb01_sf_ratios_shape (i : NB01.Inputs) (r : NB01.SfRow)
    (hr : r ∈ NB01.sf_ratios i) : 0 < r.fio2 ∧ r.sf_ratio = r.spo2 / r.fio2 := by
  rcases List.mem_filterMap.mp hr with ⟨k, hk, hf⟩
  cases hs : NB01.firstValueAt i NB01.ParamType.spo2 k with
  | none => rw [hs] at hf; simp at hf
  | some s =>
    cases hfio : NB01.firstValueAt i NB01.ParamType.fio2 k with
    | none => rw [hs, hfio] at hf; simp at hf
    | some f =>
      rw [hs, hfio] at hf
      dsimp only at hf
      by_cases hpos : 0 < f
      · rw [if_pos hpos] at hf
        cases hf
        exact ⟨hpos, rfl⟩
      · rw [if_neg hpos] at hf
        cases hf

theorem nb00_sf_ratios_shape (i : NB00.Inputs) (p : NB00.MRow × NB00.MRow × ℚ)
    (hp : p ∈ NB00.sf_ratios i) :
    0 < p.2.1.value ∧ p.2.2 = p.1.value / p.2.1.value := by
  rcases List.mem_filterMap.mp hp with ⟨l, hl, hf⟩
  cases hm : NB00.asofNearest 7200 l (NB00.sortByKey (NB00.fio2_rows i)) with
  | none => rw [hm] at hf; simp at hf
  | some f =>
    rw [hm] at hf
    dsimp only at hf
    by_cases hpos : 0 < f.value
    · rw [if_pos hpos] at hf
      cases hf
      exact ⟨hpos, rfl⟩
    · rw [if_neg hpos] at hf
      cases hf

/-! Claim theorems. -/

/-- Claim C3 counterexample: on `inputNegSpo2` the Paired-Measurement Matcher
emits the ratio (-1) / (1/2) = -2 — a negative ratio is produced when the SpO2
numerator is negative, contrary to the claim that no emitted ratio is negative
for every possible input stream including negative numerator values. -/
theorem c3_counterexample :
    ∃ r ∈ NB01.sf_ratios inputNegSpo2, r.sf_ratio < 0 := by decide

/-- Claim C3 (amended): every emitted ratio observation has a strictly positive
FiO2 denominator (so the division-by-zero branch is unreachable and no infinite
ratio occurs), the ratio equals numerator / denominator, and the ratio is
nonnegative whenever the SpO2 numerator is nonnegative — a negative numerator,
however, passes through and yields a negative ratio.  Both matcher variants
(the pivot matcher of the optimized notebook and the `merge_asof` matcher of the
original notebook) are covered. -/
theorem c3_ratio_safety :
    (∀ (i : NB01.Inputs), ∀ r ∈ NB01.sf_ratios i,
      0 < r.fio2 ∧ r.sf_ratio = r.spo2 / r.fio2 ∧ (0 ≤ r.spo2 → 0 ≤ r.sf_ratio))
  ∧ (∀ (i : NB00.Inputs), ∀ p ∈ NB00.sf_ratios i,
      0 < p.2.1.value ∧ p.2.2 = p.1.value / p.2.1.value ∧
        (0 ≤ p.1.value → 0 ≤ p.2.2)) := by
  constructor
  · intro i r hr
    obtain ⟨h1, h2⟩ := nb01_sf_ratios_shape i r hr
    exact ⟨h1, h2, fun hn => h2 ▸ div_nonneg hn h1.le⟩
  · intro i p hp
    obtain ⟨h1, h2⟩ := nb00_sf_ratios_shape i p hp
    exact ⟨h1, h2, fun hn => h2 ▸ div_nonneg hn h1.le⟩

/-- Witness for C3's amended theorem at a concrete emitted observation. -/
theorem c3_witness :
    ((⟨1, 7200, 90, 3/10, 300⟩ : NB01.SfRow) ∈ NB01.sf_ratios inputPass) ∧
    (0 < (3/10 : ℚ) ∧ (300 : ℚ) = 90 / (3/10) ∧ ((0 : ℚ) ≤ 90 → (0 : ℚ) ≤ 300)) := by
  refine ⟨by decide, ?_⟩
  have := c3_ratio_safety.1 inputPass ⟨1, 7200, 90, 3/10, 300⟩ (by decide)
  exact this

/-- Claim C6 counterexample: 150 is a FiO2 value strictly greater than 1, yet its
normalization 150 / 100 = 3/2 does not lie in [0, 1]. -/
theorem c6_counterexample :
    (1 : ℚ) < 150 ∧ NB01.normalize_fio2 150 = 3/2 ∧ ¬ NB01.normalize_fio2 150 ≤ 1 := by
  refine ⟨by norm_num, ?_, by norm_num [NB01.normalize_fio2]⟩
  norm_num [NB01.normalize_fio2]

/-- Claim C6 (amended): normalization maps any value strictly greater than 1 to
value / 100 and leaves every value ≤ 1 unchanged; the result lies in [0, 1] for
inputs in (1, 100] (not for every input above 1 — values above 100 normalize to
a value above 1); and renormalizing is the identity whenever the first
normalization landed in the ≤ 1 branch. -/
theorem c6_normalize_fio2 (v : ℚ) :
    (v ≤ 1 → NB01.normalize_fio2 v = v)
  ∧ (1 < v → NB01.normalize_fio2 v = v / 100)
  ∧ (1 < v → v ≤ 100 → 0 ≤ NB01.normalize_fio2 v ∧ NB01.normalize_fio2 v ≤ 1)
  ∧ (NB01.normalize_fio2 v ≤ 1 →
      NB01.normalize_fio2 (NB01.normalize_fio2 v) = NB01.normalize_fio2 v) := by
  refine ⟨?_, ?_, ?_, ?_⟩
  · intro h
    simp [NB01.normalize_fio2, not_lt.mpr h]
  · intro h
    simp [NB01.normalize_fio2, h]
  · intro h1 h100
    rw [NB01.normalize_fio2, if_pos h1]
    constructor
    · positivity
    · rw [div_le_one (by norm_num : (0:ℚ) < 100)]
      exact h100
  · intro h
    conv_lhs => rw [NB01.normalize_fio2]
    rw [if_neg (not_lt.mpr h)]

/-- Claim C9: whenever any filter stage of the optimized cohort notebook produces
an empty qualifying set, every downstream stage degrades to an empty result (the
embedding is a total function, so no stage can raise) and the pipeline completes
with an empty final cohort. -/
theorem c9_empty_stage_propagates (i : NB01.Inputs)
    (h : NB01.peep_qualifying_admissions i = ∅ ∨ NB01.sf_qualifying_admissions i = ∅ ∨
         NB01.final_qualifying_admissions i = ∅ ∨ NB01.final_cohort_admissions i = ∅ ∨
         NB01.radiology_admissions i = ∅ ∨ NB01.final_cohort_admissions_w_reports i = ∅) :
    NB01.final_cohort_admissions_w_reports i = ∅ ∧ NB01.final_cohort i = [] := by
  have hw : NB01.final_cohort_admissions_w_reports i = ∅ := by
    rcases h with h | h | h | h | h | h
    · rw [NB01.final_cohort_admissions_w_reports, NB01.final_cohort_admissions,
          NB01.final_qualifying_admissions, h, Finset.empty_inter, Finset.empty_sdiff,
          Finset.empty_inter]
    · rw [NB01.final_cohort_admissions_w_reports, NB01.final_cohort_admissions,
          NB01.final_qualifying_admissions, h, Finset.inter_empty, Finset.empty_sdiff,
          Finset.empty_inter]
    · rw [NB01.final_cohort_admissions_w_reports, NB01.final_cohort_admissions, h,
          Finset.empty_sdiff, Finset.empty_inter]
    · rw [NB01.final_cohort_admissions_w_reports, h, Finset.empty_inter]
    · rw [NB01.final_cohort_admissions_w_reports, h, Finset.inter_empty]
    · exact h
  refine ⟨hw, ?_⟩
  rw [NB01.final_cohort, List.map_eq_nil_iff, List.filter_eq_nil_iff]
  intro r _
  simp [hw]

/-- Witness for C9 at an input with no chart events: the PEEP stage is empty and
the final cohort is empty. -/
theorem c9_witness :
    NB01.peep_qualifying_admissions inputEmpty = ∅ ∧ NB01.final_cohort inputEmpty = [] :=
  ⟨by decide, (c9_empty_stage_propagates inputEmpty (Or.inl (by decide))).2⟩

/-- Claim C4 counterexample: in the original notebook admission 1 has two ICU stays
and survives every filter stage (it reaches the final cohort), yet exactly one
output row is emitted for it: `admissions_with_icu` deduplicates ICU stays per
admission (`drop_duplicates(['hadm_id'])`), contrary to the claim's "no
deduplication of stays per admission". -/
theorem c4_counterexample :
    inputTwoStays00.icustays.countP (fun s => s.hadm_id == 1) = 2 ∧
    (NB00.final_cohort inputTwoStays00).countP (fun r => r.1.1.hadm_id == 1) = 1 := by
  exact ⟨by decide, by decide⟩

/-- Claim C4 (amended): in the OPTIMIZED cohort notebook the assembler emits, for
every admission in the final qualifying set, one output row per (admission, stay)
pair — an admission with two stays yields two rows — and every row carries its own
`icu_los_days = (outtime - intime) / 86400`; the ORIGINAL notebook instead
deduplicates stays to the first one per admission, emitting a single row
(see the counterexample). -/
theorem c4_per_stay_rows (i : NB01.Inputs) (a : ℤ) :
    ((NB01.final_cohort i).countP (fun r => r.1.1.1.hadm_id == a) =
      if a ∈ NB01.final_cohort_admissions_w_reports i then
        (NB01.adult_icu_admissions i).countP (fun r => r.1.1.hadm_id == a)
      else 0)
  ∧ (∀ r ∈ NB01.final_cohort i, r.2 = (r.1.2.outtime - r.1.2.intime) / 86400) := by
  constructor
  · rw [NB01.final_cohort, List.countP_map, List.countP_filter]
    by_cases hmem : a ∈ NB01.final_cohort_admissions_w_reports i
    · rw [if_pos hmem]
      apply List.countP_congr
      intro r _
      by_cases hra : r.1.1.hadm_id = a
      · simp [Function.comp, hra, hmem]
      · simp [Function.comp, hra]
    · rw [if_neg hmem]
      rw [List.countP_eq_zero]
      intro r _
      by_cases hra : r.1.1.hadm_id = a
      · simp [Function.comp, hra, hmem]
      · simp [Function.comp, hra]
  · intro r hr
    rcases List.mem_map.mp hr with ⟨s, _, rfl⟩
    rfl

/-- A concrete first-stay output row of `inputPass`. -/
def rowPass : ((Admission × Option Patient) × IcuStay) × ℚ :=
  (((⟨1, 1, 0, 2020⟩, some ⟨1, 50, 2020⟩), ⟨1, 10, 0, 86400⟩), 1)

/-- Witness for C4's amended theorem: admission 1 of `inputPass` has two stays and
receives two output rows, and a concrete row's LOS is its own stay's duration. -/
theorem c4_witness :
    (NB01.final_cohort inputPass).countP (fun r => r.1.1.1.hadm_id == 1) = 2 ∧
    rowPass.2 = (rowPass.1.2.outtime - rowPass.1.2.intime) / 86400 := by
  constructor
  · have h := (c4_per_stay_rows inputPass 1).1
    rw [if_pos (by decide)] at h
    rw [h]
    decide
  · exact (c4_per_stay_rows inputPass 1).2 rowPass (by decide)

/-- Every admission passing the PEEP stage came from an adult-ICU row. -/
theorem peep_subset_adult_icu (i : NB01.Inputs) :
    NB01.peep_qualifying_admissions i ⊆ NB01.adult_icu_hadm_ids i := by
  intro a ha
  rw [NB01.peep_qualifying_admissions, List.mem_toFinset] at ha
  rcases List.mem_filterMap.mp ha with ⟨r, hr, hhadm⟩
  have hr2 : r ∈ NB01.vent_data i := List.mem_of_mem_filter hr
  rw [NB01.rowHadm] at hhadm
  rcases Option.map_eq_some'.mp hhadm with ⟨m, hm, hma⟩
  have hrj : (r.1, some m) ∈ leftJoin (fun e => e.stay_id) (fun x => x.2.stay_id)
      (NB01.vent_events i) (NB01.adult_icu_admissions i) := by
    rw [← hm]
    exact hr2
  have hmem := leftJoin_mem_right _ _ _ _ _ _ hrj
  rw [NB01.adult_icu_hadm_ids, List.mem_toFinset, ← hma]
  exact List.mem_map_of_mem _ hmem.1

/-- Every admission passing the S/F stage already passed the PEEP stage (the ratio
stage only sees PEEP-filtered data). -/
theorem sf_subset_peep (i : NB01.Inputs) :
    NB01.sf_qualifying_admissions i ⊆ NB01.peep_qualifying_admissions i := by
  intro a ha
  rw [NB01.sf_qualifying_admissions, List.mem_toFinset] at ha
  rcases List.mem_map.mp ha with ⟨row, hrow, hra⟩
  have hrow2 : row ∈ NB01.sf_ratios i := List.mem_of_mem_filter hrow
  rcases List.mem_filterMap.mp hrow2 with ⟨k, hk, hf⟩
  have hkey : row.hadm_id = k.1 := by
    cases hs : NB01.firstValueAt i NB01.ParamType.spo2 k with
    | none => rw [hs] at hf; simp at hf
    | some s =>
      cases hfio : NB01.firstValueAt i NB01.ParamType.fio2 k with
      | none => rw [hs, hfio] at hf; simp at hf
      | some f =>
        rw [hs, hfio] at hf
        dsimp only at hf
        by_cases hpos : 0 < f
        · rw [if_pos hpos] at hf; cases hf; rfl
        · rw [if_neg hpos] at hf; cases hf
  rw [NB01.sfKeys, List.mem_dedup] at hk
  rcases List.mem_filterMap.mp hk with ⟨r, hr, hg⟩
  have hr2 : r ∈ NB01.vent_data_filtered i := List.mem_of_mem_filter hr
  have hcond := (List.mem_filter.mp hr2).2
  cases hh : NB01.rowHadm r with
  | none => rw [hh] at hg; simp at hg
  | some hv =>
    cases hv2 : r.1.valuenum with
    | none => rw [hh, hv2] at hg; simp at hg
    | some _ =>
      rw [hh, hv2] at hg
      dsimp only at hg
      cases hg
      rw [hh] at hcond
      rw [← hra, hkey]
      simpa using hcond

/-- Claim C5: the final qualifying admission set equals the intersection of the
inclusion-stage sets (adult-with-ICU, PEEP, S/F, radiology) minus the union of the
heart-failure and pregnancy exclusion sets; the composition is invariant under
permuting the stages (shown by a reordered form), and subtracting the union once
coincides with subtracting the two exclusion sets one after another, so an
admission carrying both code families is excluded exactly once. -/
theorem c5_final_set_algebra (i : NB01.Inputs) :
    (∀ a : ℤ, a ∈ NB01.final_cohort_admissions_w_reports i ↔
      (a ∈ NB01.adult_icu_hadm_ids i ∧ a ∈ NB01.peep_qualifying_admissions i ∧
       a ∈ NB01.sf_qualifying_admissions i ∧ a ∈ NB01.radiology_admissions i ∧
       a ∉ NB01.hf_admissions i ∧ a ∉ NB01.pregnancy_admissions i))
  ∧ NB01.final_cohort_admissions_w_reports i =
      (NB01.adult_icu_hadm_ids i ∩ NB01.peep_qualifying_admissions i ∩
        NB01.sf_qualifying_admissions i ∩ NB01.radiology_admissions i) \
        (NB01.hf_admissions i ∪ NB01.pregnancy_admissions i)
  ∧ NB01.final_cohort_admissions_w_reports i =
      (NB01.radiology_admissions i ∩ NB01.sf_qualifying_admissions i ∩
        NB01.peep_qualifying_admissions i ∩ NB01.adult_icu_hadm_ids i) \
        (NB01.pregnancy_admissions i ∪ NB01.hf_admissions i)
  ∧ (NB01.adult_icu_hadm_ids i ∩ NB01.peep_qualifying_admissions i ∩
      NB01.sf_qualifying_admissions i ∩ NB01.radiology_admissions i) \
      (NB01.hf_admissions i ∪ NB01.pregnancy_admissions i) =
    ((NB01.adult_icu_hadm_ids i ∩ NB01.peep_qualifying_admissions i ∩
      NB01.sf_qualifying_admissions i ∩ NB01.radiology_admissions i) \
      NB01.hf_admissions i) \ NB01.pregnancy_admissions i := by
  have hps := peep_subset_adult_icu i
  have hsp := sf_subset_peep i
  have key : ∀ a : ℤ, a ∈ NB01.final_cohort_admissions_w_reports i ↔
      (a ∈ NB01.adult_icu_hadm_ids i ∧ a ∈ NB01.peep_qualifying_admissions i ∧
       a ∈ NB01.sf_qualifying_admissions i ∧ a ∈ NB01.radiology_admissions i ∧
       a ∉ NB01.hf_admissions i ∧ a ∉ NB01.pregnancy_admissions i) := by
    intro a
    rw [NB01.final_cohort_admissions_w_reports, NB01.final_cohort_admissions,
        NB01.final_qualifying_admissions, NB01.excluded_admissions]
    simp only [Finset.mem_inter, Finset.mem_sdiff, Finset.mem_union]
    constructor
    · rintro ⟨⟨⟨hp, hs⟩, hex⟩, hr⟩
      exact ⟨hps hp, hp, hs, hr, fun h => hex (Or.inl h), fun h => hex (Or.inr h)⟩
    · rintro ⟨_, hp, hs, hr, h1, h2⟩
      exact ⟨⟨⟨hp, hs⟩, fun h => h.elim h1 h2⟩, hr⟩
  refine ⟨key, ?_, ?_, ?_⟩
  · ext a
    rw [key a]
    simp only [Finset.mem_sdiff, Finset.mem_inter, Finset.mem_union]
    constructor
    · rintro ⟨h1, h2, h3, h4, h5, h6⟩
      exact ⟨⟨⟨⟨h1, h2⟩, h3⟩, h4⟩, fun h => h.elim h5 h6⟩
    · rintro ⟨⟨⟨⟨h1, h2⟩, h3⟩, h4⟩, hex⟩
      exact ⟨h1, h2, h3, h4, fun h => hex (Or.inl h), fun h => hex (Or.inr h)⟩
  · ext a
    rw [key a]
    simp only [Finset.mem_sdiff, Finset.mem_inter, Finset.mem_union]
    constructor
    · rintro ⟨h1, h2, h3, h4, h5, h6⟩
      exact ⟨⟨⟨⟨h4, h3⟩, h2⟩, h1⟩, fun h => h.elim h6 h5⟩
    · rintro ⟨⟨⟨⟨h4, h3⟩, h2⟩, h1⟩, hex⟩
      exact ⟨h1, h2, h3, h4, fun h => hex (Or.inr h), fun h => hex (Or.inl h)⟩
  · ext a
    simp only [Finset.mem_sdiff, Finset.mem_inter, Finset.mem_union]
    constructor
    · rintro ⟨hx, hex⟩
      exact ⟨⟨hx, fun h => hex (Or.inl h)⟩, fun h => hex (Or.inr h)⟩
    · rintro ⟨⟨hx, h1⟩, h2⟩
      exact ⟨hx, fun h => h.elim h1 h2⟩

/-- Claim C8: an admission passes the PEEP-window filter iff some PEEP observation
of it has elapsed hours from ICU admission in the closed interval [0, 48] and a
value of at least 5; at the boundaries, an observation at exactly 48.0 h (and at
exactly 0 h) qualifies while one at 48.0001 h (or at -0.0001 h) does not. -/
theorem c8_peep_window :
    (∀ (i : NB01.Inputs) (a : ℤ),
      a ∈ NB01.peep_qualifying_admissions i ↔
        ∃ r ∈ NB01.vent_data i,
          NB01.classifyItem r.1.itemid = NB01.ParamType.peep ∧
          NB01.rowHadm r = some a ∧
          ∃ h v, NB01.rowHours r = some h ∧ r.1.valuenum = some v ∧
            0 ≤ h ∧ h ≤ 48 ∧ 5 ≤ v)
  ∧ ((1 : ℤ) ∈ NB01.peep_qualifying_admissions (inputPeepAt 48))
  ∧ ((1 : ℤ) ∉ NB01.peep_qualifying_admissions (inputPeepAt (480001/10000)))
  ∧ ((1 : ℤ) ∈ NB01.peep_qualifying_admissions (inputPeepAt 0))
  ∧ ((1 : ℤ) ∉ NB01.peep_qualifying_admissions (inputPeepAt (-1/10000))) := by
  refine ⟨?_, by decide, by decide, by decide, by decide⟩
  intro i a
  rw [NB01.peep_qualifying_admissions, List.mem_toFinset]
  constructor
  · intro ha
    rcases List.mem_filterMap.mp ha with ⟨r, hr, hhadm⟩
    rcases List.mem_filter.mp hr with ⟨hrd, hcond⟩
    simp only [Bool.and_eq_true, decide_eq_true_eq] at hcond
    obtain ⟨⟨hclass, hhours⟩, hval⟩ := hcond
    refine ⟨r, hrd, hclass, hhadm, ?_⟩
    cases hh : NB01.rowHours r with
    | none => rw [hh] at hhours; simp at hhours
    | some hq =>
      rw [hh] at hhours
      simp only [Bool.and_eq_true, decide_eq_true_eq] at hhours
      cases hv : r.1.valuenum with
      | none => rw [hv] at hval; simp at hval
      | some vq =>
        rw [hv] at hval
        simp only [decide_eq_true_eq] at hval
        exact ⟨hq, vq, rfl, rfl, hhours.1, hhours.2, hval⟩
  · rintro ⟨r, hrd, hclass, hhadm, h, v, hh, hv, h0, h48, h5⟩
    apply List.mem_filterMap.mpr
    refine ⟨r, ?_, hhadm⟩
    apply List.mem_filter.mpr
    refine ⟨hrd, ?_⟩
    simp only [Bool.and_eq_true, decide_eq_true_eq]
    refine ⟨⟨hclass, ?_⟩, ?_⟩
    · rw [hh]
      simp only [Bool.and_eq_true, decide_eq_true_eq]
      exact ⟨h0, h48⟩
    · rw [hv]
      simp only [decide_eq_true_eq]
      exact h5

/-- Projecting a keyed `map` back to its keys is the identity. -/
theorem map_key_of_mk {β : Type} (f : ℤ → β) (keyF : β → ℤ) (hk : ∀ k, keyF (f k) = k)
    (l : List ℤ) : (l.map f).map keyF = l := by
  rw [List.map_map]
  have h : (keyF ∘ f) = id := funext hk
  rw [h, List.map_id]

/-- Claim C10: the flagging stage of the ARDS-identification notebook neither
filters, drops nor duplicates rows — the output projects back onto the base cohort
row-for-row and has the same length — because both joined per-admission aggregates
have pairwise distinct admission keys and are attached by left join. -/
theorem c10_flagging_frame (i : NB02.Inputs) :
    ((NB02.final_cohort i).map (fun r => r.1.1) = i.base_cohort)
  ∧ (NB02.final_cohort i).length = i.base_cohort.length
  ∧ ((NB02.ards_onset_times i).map (fun r => r.hadm_id)).Nodup
  ∧ ((NB02.bilateral_by_admission i).map (fun r => r.hadm_id)).Nodup := by
  have ho : ((NB02.ards_onset_times i).map (fun r => r.hadm_id)) =
      ((NB02.ards_sf_criteria i).map (fun r => r.hadm_id)).dedup :=
    map_key_of_mk _ _ (fun k => rfl) _
  have hb : ((NB02.bilateral_by_admission i).map (fun r => r.hadm_id)) =
      ((NB02.cohort_radiology i).map (fun r => r.1)).dedup :=
    map_key_of_mk _ _ (fun k => rfl) _
  have hnodupO : ((NB02.ards_onset_times i).map (fun r => r.hadm_id)).Nodup := by
    rw [ho]; exact List.nodup_dedup _
  have hnodupB : ((NB02.bilateral_by_admission i).map (fun r => r.hadm_id)).Nodup := by
    rw [hb]; exact List.nodup_dedup _
  have h1 : (NB02.final_cohort i).map Prod.fst =
      leftJoin (fun r => r.hadm_id) (fun o => o.hadm_id) i.base_cohort
        (NB02.ards_onset_times i) :=
    leftJoin_map_fst _ _ _ _ hnodupB
  have h2 : (leftJoin (fun r => r.hadm_id) (fun o => o.hadm_id) i.base_cohort
      (NB02.ards_onset_times i)).map Prod.fst = i.base_cohort :=
    leftJoin_map_fst _ _ _ _ hnodupO
  have hmain : (NB02.final_cohort i).map (fun r => r.1.1) = i.base_cohort := by
    have : (NB02.final_cohort i).map (fun r => r.1.1) =
        ((NB02.final_cohort i).map Prod.fst).map Prod.fst := by
      rw [List.map_map]; rfl
    rw [this, h1, h2]
  refine ⟨hmain, ?_, hnodupO, hnodupB⟩
  have := congrArg List.length hmain
  rwa [List.length_map] at this

/-- Claim C2 counterexample: for the two reports of `inputBilat` (negative at time
1, positive at time 2) the retained record is (flag = true, time = 1): the
timestamp kept with the flag is the minimum over ALL the admission's reports
(time 1, the negative report), not the minimum over the positively classified
reports (time 2), contradicting the claim. -/
theorem c2_counterexample :
    NB02.lookupBilat inputBilat 1 = some ⟨1, true, some 1⟩ ∧
    ((((NB02.cohort_radiology inputBilat).filter (fun r => r.2.2)).map
        (fun r => r.2.1)).min?) = some 2 ∧
    (1 : ℚ) ≠ 2 := by
  refine ⟨by decide, by decide, by norm_num⟩

/-- Claim C2 (amended): the per-admission flag is true iff some report of the
admission classifies positive, but the timestamp retained with it
(`first_radiology_time`) is the minimum charttime over ALL of the admission's
reports; the Berlin notebook's `bilateral_infiltrates_df` is the variant that
retains the minimum over the positively classified reports only. -/
theorem c2_bilateral_aggregation :
    (∀ (i : NB02.Inputs) (a : ℤ) (row : NB02.BilatRow),
      NB02.lookupBilat i a = some row →
        row.hadm_id = a ∧
        (row.has_bilateral_infiltrates = true ↔
          ∃ r ∈ NB02.cohort_radiology i, r.1 = a ∧ r.2.2 = true) ∧
        row.first_radiology_time =
          (((NB02.cohort_radiology i).filter (fun r => r.1 == a)).map (fun r => r.2.1)).min?)
  ∧ (∀ (i : NB03.Inputs) (a : ℤ) (t : ℚ),
      (a, t) ∈ NB03.bilateral_infiltrates_df i →
        ((((NB03.cohort_radiology i).filter (fun r => r.2.2)).filter (fun r => r.1 == a)).map
          (fun r => r.2.1)).min? = some t) := by
  constructor
  · intro i a row hrow
    have hlk : NB02.lookupBilat i a =
        ((((NB02.cohort_radiology i).map (fun r => r.1)).dedup).find?
          (fun k => k == a)).map (fun h =>
            (⟨h, ((NB02.cohort_radiology i).filter (fun r => r.1 == h)).any (fun r => r.2.2),
              (((NB02.cohort_radiology i).filter (fun r => r.1 == h)).map
                (fun r => r.2.1)).min?⟩ : NB02.BilatRow)) :=
      find?_map_key _ _ (fun k => rfl) _ _
    rw [hlk] at hrow
    cases hf : (((NB02.cohort_radiology i).map (fun r => r.1)).dedup).find?
        (fun k => k == a) with
    | none => rw [hf] at hrow; cases hrow
    | some k0 =>
      rw [hf] at hrow
      have hk0 : k0 = a := by simpa using List.find?_some hf
      subst hk0
      cases hrow
      refine ⟨rfl, ?_, rfl⟩
      rw [List.any_eq_true]
      constructor
      · rintro ⟨r, hr, hflag⟩
        rcases List.mem_filter.mp hr with ⟨hmem, hkey⟩
        exact ⟨r, hmem, by simpa using hkey, hflag⟩
      · rintro ⟨r, hmem, hkey, hflag⟩
        exact ⟨r, List.mem_filter.mpr ⟨hmem, by simpa using hkey⟩, hflag⟩
  · intro i a t hmem
    rcases List.mem_filterMap.mp hmem with ⟨h, _, hsome⟩
    rcases Option.map_eq_some'.mp hsome with ⟨t0, hmin, heq⟩
    have hha : h = a := congrArg Prod.fst heq
    have hta : t0 = t := congrArg Prod.snd heq
    rw [← hha, ← hta]
    exact hmin

/-- Witness for C2's amended theorem at concrete inputs: the retained record of
`inputBilat` and the Berlin-variant aggregate of `inputBerlin`. -/
theorem c2_witness :
    ((⟨1, true, some 1⟩ : NB02.BilatRow).hadm_id = 1 ∧
      ((⟨1, true, some 1⟩ : NB02.BilatRow).has_bilateral_infiltrates = true ↔
        ∃ r ∈ NB02.cohort_radiology inputBilat, r.1 = 1 ∧ r.2.2 = true) ∧
      (⟨1, true, some 1⟩ : NB02.BilatRow).first_radiology_time =
        (((NB02.cohort_radiology inputBilat).filter (fun r => r.1 == 1)).map
          (fun r => r.2.1)).min?)
  ∧ ((((NB03.cohort_radiology inputBerlin).filter (fun r => r.2.2)).filter
        (fun r => r.1 == 1)).map (fun r => r.2.1)).min? = some 0 :=
  ⟨c2_bilateral_aggregation.1 inputBilat 1 ⟨1, true, some 1⟩ (by decide),
   c2_bilateral_aggregation.2 inputBerlin 1 0 (by decide)⟩

/-- Claim C1 counterexample: on `inputOnset` the retained onset record of admission
1 is (time 600 s, ratio 200), but no qualifying observation carries that timestamp
together with that ratio — the observation at 600 s has ratio 300, and ratio 200
belongs to the later observation at 1200 s; the two onset columns are independent
minima, not one observation. -/
theorem c1_counterexample :
    NB02.lookupOnset inputOnset 1 = some ⟨1, some 600, some 200, some 10⟩ ∧
    ¬ ∃ r ∈ NB02.ards_sf_criteria inputOnset,
        r.hadm_id = 1 ∧ r.charttime = 600 ∧ r.sf_ratio = 200 := by
  exact ⟨by decide, by decide⟩

/-- Claim C1 (amended): for every admission with at least one qualifying onset
observation, the retained record carries the earliest qualifying timestamp in
`ards_onset_time` and the MINIMUM qualifying S/F ratio in `ards_onset_sf_ratio` —
each a column-wise minimum over the admission's qualifying observations, not
necessarily both from one and the same observation. -/
theorem c1_onset_min_fields (i : NB02.Inputs) (a : ℤ)
    (hne : (NB02.ards_sf_criteria i).filter (fun r => r.hadm_id == a) ≠ []) :
    ∃ row t q,
      NB02.lookupOnset i a = some row ∧ row.hadm_id = a ∧
      row.ards_onset_time = some t ∧ row.ards_onset_sf_ratio = some q ∧
      (∃ r ∈ (NB02.ards_sf_criteria i).filter (fun r => r.hadm_id == a), r.charttime = t) ∧
      (∀ r ∈ (NB02.ards_sf_criteria i).filter (fun r => r.hadm_id == a), t ≤ r.charttime) ∧
      (∃ r ∈ (NB02.ards_sf_criteria i).filter (fun r => r.hadm_id == a), r.sf_ratio = q) ∧
      (∀ r ∈ (NB02.ards_sf_criteria i).filter (fun r => r.hadm_id == a), q ≤ r.sf_ratio) := by
  have hkey : a ∈ ((NB02.ards_sf_criteria i).map (fun r => r.hadm_id)).dedup :=
    (mem_dedup_map_iff _ _ _).mpr hne
  have hlk : NB02.lookupOnset i a =
      ((((NB02.ards_sf_criteria i).map (fun r => r.hadm_id)).dedup).find?
        (fun k => k == a)).map (fun h =>
          (⟨h, (((NB02.ards_sf_criteria i).filter (fun r => r.hadm_id == h)).map
              (fun r => r.charttime)).min?,
            (((NB02.ards_sf_criteria i).filter (fun r => r.hadm_id == h)).map
              (fun r => r.sf_ratio)).min?,
            (((NB02.ards_sf_criteria i).filter (fun r => r.hadm_id == h)).filterMap
              (fun r => r.minutes_from_icu)).min?⟩ : NB02.OnsetRow)) :=
    find?_map_key _ _ (fun k => rfl) _ _
  rw [find?_beq_self hkey] at hlk
  have htne : ((NB02.ards_sf_criteria i).filter (fun r => r.hadm_id == a)).map
      (fun r => r.charttime) ≠ [] := by
    simpa [List.map_eq_nil_iff] using hne
  have hqne : ((NB02.ards_sf_criteria i).filter (fun r => r.hadm_id == a)).map
      (fun r => r.sf_ratio) ≠ [] := by
    simpa [List.map_eq_nil_iff] using hne
  rcases qmin_isSome _ htne with ⟨t, ht⟩
  rcases qmin_isSome _ hqne with ⟨q, hq⟩
  rcases qmin_spec _ _ ht with ⟨htmem, htbound⟩
  rcases qmin_spec _ _ hq with ⟨hqmem, hqbound⟩
  rcases List.mem_map.mp htmem with ⟨rt, hrt, hrteq⟩
  rcases List.mem_map.mp hqmem with ⟨rq, hrq, hrqeq⟩
  refine ⟨_, t, q, hlk, rfl, by exact ht, by exact hq, ⟨rt, hrt, hrteq⟩, ?_, ⟨rq, hrq, hrqeq⟩, ?_⟩
  · intro r hr
    exact htbound _ (List.mem_map_of_mem _ hr)
  · intro r hr
    exact hqbound _ (List.mem_map_of_mem _ hr)

/-- Witness for C1's amended theorem on `inputOnset`: admission 1 has qualifying
observations and the theorem applies. -/
theorem c1_witness :
    ((NB02.ards_sf_criteria inputOnset).filter (fun r => r.hadm_id == 1) ≠ []) ∧
    (∃ row t q,
      NB02.lookupOnset inputOnset 1 = some row ∧ row.hadm_id = 1 ∧
      row.ards_onset_time = some t ∧ row.ards_onset_sf_ratio = some q ∧
      (∃ r ∈ (NB02.ards_sf_criteria inputOnset).filter (fun r => r.hadm_id == 1),
        r.charttime = t) ∧
      (∀ r ∈ (NB02.ards_sf_criteria inputOnset).filter (fun r => r.hadm_id == 1),
        t ≤ r.charttime) ∧
      (∃ r ∈ (NB02.ards_sf_criteria inputOnset).filter (fun r => r.hadm_id == 1),
        r.sf_ratio = q) ∧
      (∀ r ∈ (NB02.ards_sf_criteria inputOnset).filter (fun r => r.hadm_id == 1),
        q ≤ r.sf_ratio)) :=
  ⟨by decide, c1_onset_min_fields inputOnset 1 (by decide)⟩

/-- Membership in the inner-merged measurement table of the Berlin identification. -/
theorem mem_vent_with_bilateral (i : NB03.Inputs) (r : NB03.VentProcRow) (bt at_ : ℚ) :
    (r, bt, at_) ∈ NB03.vent_with_bilateral i ↔
      r ∈ NB03.vent_processed i ∧ (r.hadm_id, bt) ∈ NB03.bilateral_infiltrates_df i ∧
      ∃ b ∈ i.base_cohort, b.hadm_id = r.hadm_id ∧ b.admission_dttm = at_ := by
  rw [NB03.vent_with_bilateral]
  constructor
  · intro hm
    rcases List.mem_flatMap.mp hm with ⟨r0, hr0, hm2⟩
    rcases List.mem_flatMap.mp hm2 with ⟨p, hp, hm3⟩
    by_cases hid : r0.hadm_id = p.1
    · rw [if_pos (by simpa using hid)] at hm3
      rcases List.mem_map.mp hm3 with ⟨b, hb, heq⟩
      have hr0r : r0 = r := congrArg Prod.fst heq
      have hpbt : p.2 = bt := congrArg (fun x => x.2.1) heq
      have hbat : b.admission_dttm = at_ := congrArg (fun x => x.2.2) heq
      rcases List.mem_filter.mp hb with ⟨hbmem, hbkey⟩
      have hbk : b.hadm_id = p.1 := by simpa using hbkey
      have hpeq : p = (r.hadm_id, bt) := by
        have hp1 : p.1 = r.hadm_id := by rw [← hr0r]; exact hid.symm
        exact Prod.ext hp1 hpbt
      refine ⟨hr0r ▸ hr0, hpeq ▸ hp, b, hbmem, by rw [hbk, hpeq], hbat⟩
    · rw [if_neg (by simpa using hid)] at hm3
      cases hm3
  · rintro ⟨hr, hp, b, hb, hbk, hba⟩
    apply List.mem_flatMap.mpr
    refine ⟨r, hr, ?_⟩
    apply List.mem_flatMap.mpr
    refine ⟨(r.hadm_id, bt), hp, ?_⟩
    rw [if_pos (by simp)]
    apply List.mem_map.mpr
    refine ⟨b, List.mem_filter.mpr ⟨hb, by simpa using hbk⟩, by rw [hba]⟩

/-- A processed row's parameter columns are the pivot's value functions at its key. -/
theorem vent_processed_fields (i : NB03.Inputs) (r : NB03.VentProcRow)
    (hr : r ∈ NB03.vent_processed i) :
    r.peep = NB03.peepAt i r.hadm_id r.charttime ∧
    r.fio2 = NB03.fio2At i r.hadm_id r.charttime ∧
    r.pao2 = NB03.pao2At i r.hadm_id r.charttime ∧
    r.pf_ratio = NB03.pfAt i r.hadm_id r.charttime := by
  rcases List.mem_map.mp hr with ⟨k, _, rfl⟩
  exact ⟨rfl, rfl, rfl, rfl⟩

/-- Claim C7 counterexample: on `inputBerlin` the single observation satisfies every
time and PEEP condition and its S/F ratio is 90 / 0.3 = 300 ≤ 300, so the claim's
S/F-based description admits it, but the code's qualifying set is empty — the
ratio actually tested is the P/F ratio 95 / 0.3 = 316.67 > 300. -/
theorem c7_counterexample :
    NB03.qualifying_measurements inputBerlin = [] ∧
    NB03.qualifying_measurements_spec_sf inputBerlin ≠ [] :=
  ⟨by decide, by decide⟩

/-- Claim C7 (amended): an observation qualifies in the Berlin-style variant iff it
is a processed measurement of an admission with documented bilateral infiltrates,
its timestamp is at or after the bilateral-infiltrates time, at or after admission
and within 168 hours of admission, the bilateral documentation itself is within
168 hours of admission, PEEP at the same observation is at least 5, and the P/F
ratio — the directly recorded P/F item, or PaO2 / FiO2 when both are present with
positive FiO2 — is at most 300; the ratio tested is the P/F ratio, not the S/F
ratio. -/
theorem c7_berlin_qualifying (i : NB03.Inputs) (r : NB03.VentProcRow) (bt at_ : ℚ) :
    (r, bt, at_) ∈ NB03.qualifying_measurements i ↔
      (r ∈ NB03.vent_processed i ∧
       (r.hadm_id, bt) ∈ NB03.bilateral_infiltrates_df i ∧
       (∃ b ∈ i.base_cohort, b.hadm_id = r.hadm_id ∧ b.admission_dttm = at_) ∧
       (bt - at_) / 3600 ≤ 168 ∧
       0 ≤ (r.charttime - bt) / 3600 ∧
       0 ≤ (r.charttime - at_) / 3600 ∧ (r.charttime - at_) / 3600 ≤ 168 ∧
       (∃ p, r.peep = some p ∧ 5 ≤ p) ∧
       (∃ v, r.pf_ratio = some v ∧ v ≤ 300 ∧
         (NB03.pfItemAt i r.hadm_id r.charttime = some v ∨
           (NB03.pfItemAt i r.hadm_id r.charttime = none ∧
             ∃ p f, NB03.pao2At i r.hadm_id r.charttime = some p ∧
               NB03.fio2At i r.hadm_id r.charttime = some f ∧ 0 < f ∧ v = p / f)))) := by
  rw [NB03.qualifying_measurements, List.mem_filter, mem_vent_with_bilateral]
  constructor
  · rintro ⟨⟨hr, hbt, hb⟩, hcond⟩
    rw [NB03.berlinCond] at hcond
    simp only [Bool.and_eq_true, decide_eq_true_eq] at hcond
    obtain ⟨⟨⟨⟨⟨h1, h2⟩, h3⟩, h4⟩, hpeep⟩, hpf⟩ := hcond
    have hpeep2 : ∃ p, r.peep = some p ∧ 5 ≤ p := by
      cases hp : r.peep with
      | none => rw [hp] at hpeep; simp at hpeep
      | some p =>
        rw [hp] at hpeep
        simp only [decide_eq_true_eq] at hpeep
        exact ⟨p, rfl, hpeep⟩
    have hpf2 : ∃ v, r.pf_ratio = some v ∧ v ≤ 300 := by
      cases hp : r.pf_ratio with
      | none => rw [hp] at hpf; simp at hpf
      | some v =>
        rw [hp] at hpf
        simp only [decide_eq_true_eq] at hpf
        exact ⟨v, rfl, hpf⟩
    rcases hpf2 with ⟨v, hv, hv300⟩
    have hfields := vent_processed_fields i r hr
    have hpfr : NB03.pfAt i r.hadm_id r.charttime = some v := by
      rw [← hfields.2.2.2]
      exact hv
    have hprov : NB03.pfItemAt i r.hadm_id r.charttime = some v ∨
        (NB03.pfItemAt i r.hadm_id r.charttime = none ∧
          ∃ p f, NB03.pao2At i r.hadm_id r.charttime = some p ∧
            NB03.fio2At i r.hadm_id r.charttime = some f ∧ 0 < f ∧ v = p / f) := by
      rw [NB03.pfAt] at hpfr
      cases hitem : NB03.pfItemAt i r.hadm_id r.charttime with
      | some w =>
        rw [hitem] at hpfr
        dsimp only at hpfr
        exact Or.inl hpfr
      | none =>
        rw [hitem] at hpfr
        dsimp only at hpfr
        cases hpao : NB03.pao2At i r.hadm_id r.charttime with
        | none => rw [hpao] at hpfr; simp at hpfr
        | some p =>
          cases hfio : NB03.fio2At i r.hadm_id r.charttime with
          | none => rw [hpao, hfio] at hpfr; simp at hpfr
          | some f =>
            rw [hpao, hfio] at hpfr
            dsimp only at hpfr
            by_cases hfp : 0 < f
            · rw [if_pos hfp] at hpfr
              exact Or.inr ⟨rfl, p, f, rfl, rfl, hfp, (Option.some.inj hpfr).symm⟩
            · rw [if_neg hfp] at hpfr
              cases hpfr
    exact ⟨hr, hbt, hb, h1, h2, h3, h4, hpeep2, v, hv, hv300, hprov⟩
  · rintro ⟨hr, hbt, hb, h1, h2, h3, h4, ⟨p, hp, hp5⟩, ⟨v, hv, hv300, -⟩⟩
    refine ⟨⟨hr, hbt, hb⟩, ?_⟩
    rw [NB03.berlinCond]
    simp only [Bool.and_eq_true, decide_eq_true_eq]
    refine ⟨⟨⟨⟨⟨h1, h2⟩, h3⟩, h4⟩, ?_⟩, ?_⟩
    · rw [hp]
      simp only [decide_eq_true_eq]
      exact hp5
    · rw [hv]
      simp only [decide_eq_true_eq]
      exact hv300

/-- Witness for C6's amended theorem at concrete values 1/2 and 50. -/
theorem c6_witness :
    NB01.normalize_fio2 (1/2) = 1/2 ∧ NB01.normalize_fio2 50 = 50 / 100 ∧
    (0 ≤ NB01.normalize_fio2 50 ∧ NB01.normalize_fio2 50 ≤ 1) ∧
    NB01.normalize_fio2 (NB01.normalize_fio2 50) = NB01.normalize_fio2 50 :=
  ⟨(c6_normalize_fio2 (1/2)).1 (by norm_num),
   (c6_normalize_fio2 50).2.1 (by norm_num),
   (c6_normalize_fio2 50).2.2.1 (by norm_num) (by norm_num),
   (c6_normalize_fio2 50).2.2.2 (by norm_num [NB01.normalize_fio2])⟩

end ArdsPipeline
